import Mathlib

/-!
Shallow embedding of the AMQP CDR backend (`src/cdr_amqp.c`).

The module keeps one global configuration object (`confs`), rebuilt by the
`aco` configuration framework on load/reload.  The pre-apply hook
`setup_amqp` refreshes the AMQP connection on the pending configuration and
fails the whole reload when no connection can be obtained, in which case the
previously installed configuration stays in place.  The CDR handler
`amqp_cdr_log` grabs a reference to the current configuration, serializes
the CDR to JSON, and publishes it once over the snapshot's connection.

External collaborators (the `aco` framework, the JSON library, the AMQP
connection library, and host helpers such as `ast_cdr_disp2str`) are
modelled by explicit data and environment parameters; fallible collaborator
calls are driven by oracle booleans in `LogEnv`.
-/

namespace CdrAmqp

/-- Opaque identity of a live AMQP connection object
(`struct ast_amqp_connection`), provided by the `res_amqp` collaborator.
Only its identity matters to this module. -/
structure AmqpConnection where
  id : Nat
deriving DecidableEq, Repr

/-- `struct cdr_amqp_global_conf` (src/cdr_amqp.c:85-101): connection name,
queue (routing key), exchange, the two optional-field flags, and the current
AMQP connection handle (`NULL` modelled as `none`). -/
structure GlobalConf where
  connection : String
  queue : String
  exchange : String
  loguniqueid : Bool
  loguserfield : Bool
  amqp : Option AmqpConnection
deriving DecidableEq, Repr

/-- `struct cdr_amqp_conf` (src/cdr_amqp.c:104-106); `global` is `none` when
the inner allocation failed. -/
structure CdrAmqpConf where
  global : Option GlobalConf
deriving DecidableEq, Repr

/-- One explicit option assignment in `cdr_amqp.conf`, for the five options
registered in `load_module` (src/cdr_amqp.c:339-353). -/
inductive ConfOption where
  | loguniqueid (b : Bool)
  | loguserfield (b : Bool)
  | connection (s : String)
  | queue (s : String)
  | exchange (s : String)
deriving DecidableEq, Repr

/-- Defaults registered with `aco_option_register` (src/cdr_amqp.c:339-353)
and applied by `aco_set_defaults` in `conf_global_create`
(src/cdr_amqp.c:141): `loguniqueid = no`, `loguserfield = no`,
`connection = ""`, `queue = "asterisk_cdr"`, `exchange = ""`; the `amqp`
handle starts out `NULL` from the zeroed allocation. -/
def defaultGlobalConf : GlobalConf :=
  { connection := ""
  , queue := "asterisk_cdr"
  , exchange := ""
  , loguniqueid := false
  , loguserfield := false
  , amqp := none }

/-- Effect of one explicit option assignment on the global conf (the `aco`
framework writes the parsed value into the registered field). -/
def applyOption (g : GlobalConf) : ConfOption → GlobalConf
  | ConfOption.loguniqueid b => { g with loguniqueid := b }
  | ConfOption.loguserfield b => { g with loguserfield := b }
  | ConfOption.connection s => { g with connection := s }
  | ConfOption.queue s => { g with queue := s }
  | ConfOption.exchange s => { g with exchange := s }

/-- Build the pending global configuration from the parsed file: defaults
first (`conf_global_create`), then each explicit assignment in file order. -/
def buildGlobalConf (opts : List ConfOption) : GlobalConf :=
  opts.foldl applyOption defaultGlobalConf

/-- `setup_amqp` (src/cdr_amqp.c:186-210), acting on the pending
configuration: drop the old handle, fetch a fresh one for the configured
connection name from `ast_amqp_get_connection` (modelled by `getConn`), and
fail with `-1` when none is available.  The first component is the C return
value, the second the pending configuration after the in-place update. -/
def setup_amqp (getConn : String → Option AmqpConnection)
    (pending : CdrAmqpConf) : Int × CdrAmqpConf :=
  match pending.global with
  | none => (-1, pending)
  | some g =>
    let fresh := getConn g.connection
    let updated : CdrAmqpConf := { global := some { g with amqp := fresh } }
    match fresh with
    | none => (-1, updated)
    | some _ => (0, updated)

/-- Outcome of reading `cdr_amqp.conf`: a parse/processing error, an
unchanged file on reload, or a parsed list of explicit option
assignments. -/
inductive ConfigFileRead where
  | parseError
  | unchanged
  | parsed (opts : List ConfOption)

/-- Return status of `aco_process_config`. -/
inductive AcoProcessStatus where
  | error
  | ok
  | unchanged
deriving DecidableEq, Repr

/-- `aco_process_config(&cfg_info, reload)` as used here: on a parsed file a
pending configuration is allocated (`conf_alloc`, defaults set), the
explicit options are applied, the `pre_apply_config` hook `setup_amqp` runs,
and only on its success is the pending configuration installed as the new
global `confs`; on failure (or parse error) the previous store content is
left untouched.  An unchanged file on reload installs nothing. -/
def aco_process_config (getConn : String → Option AmqpConnection)
    (file : ConfigFileRead) (store : Option CdrAmqpConf) :
    AcoProcessStatus × Option CdrAmqpConf :=
  match file with
  | ConfigFileRead.parseError => (AcoProcessStatus.error, store)
  | ConfigFileRead.unchanged => (AcoProcessStatus.unchanged, store)
  | ConfigFileRead.parsed opts =>
    let pending : CdrAmqpConf := { global := some (buildGlobalConf opts) }
    let applied := setup_amqp getConn pending
    if applied.1 = 0 then (AcoProcessStatus.ok, some applied.2)
    else (AcoProcessStatus.error, store)

/-- `load_config` (src/cdr_amqp.c:309-329): run `aco_process_config`, fail on
`ACO_PROCESS_ERROR`, then re-read the global store and fail when it is empty
or has no global section.  Returns the C return value and the store. -/
def load_config (getConn : String → Option AmqpConnection)
    (file : ConfigFileRead) (store : Option CdrAmqpConf) :
    Int × Option CdrAmqpConf :=
  match aco_process_config getConn file store with
  | (AcoProcessStatus.error, store2) => (-1, store2)
  | (_, none) => (-1, none)
  | (_, some conf) =>
    match conf.global with
    | none => (-1, some conf)
    | some _ => (0, some conf)

/-- JSON values as used by the handler: strings, integers (`s: i` pack
items), and the opaque timestamp value produced by `ast_json_timeval`. -/
inductive JsonVal where
  | str (s : String)
  | int (n : Int)
  | timeval (sec : Int) (usec : Int)
deriving DecidableEq, Repr

/-- A JSON object is an ordered association list of key/value pairs. -/
abbrev JsonObj := List (String × JsonVal)

/-- Look up a key in a JSON object (first match). -/
def jsonGet (doc : JsonObj) (k : String) : Option JsonVal :=
  (doc.find? (fun kv => kv.1 = k)).map Prod.snd

/-- `ast_json_object_set` semantics: replace the value of an existing key,
otherwise append the new key/value pair. -/
def ast_json_object_set (doc : JsonObj) (k : String) (v : JsonVal) :
    JsonObj :=
  if doc.any (fun kv => kv.1 = k)
  then doc.map (fun kv => if kv.1 = k then (k, v) else kv)
  else doc ++ [(k, v)]

/-- `struct ast_cdr` (host-owned), restricted to the fields this module
reads.  Timevals are (seconds, microseconds) pairs; `duration`, `billsec`,
`disposition` and `amaflags` are integral as in the C struct. -/
structure AstCdr where
  clid : String
  src : String
  dst : String
  dcontext : String
  channel : String
  dstchannel : String
  lastapp : String
  lastdata : String
  start : Int × Int
  answer : Int × Int
  end_ : Int × Int
  duration : Int
  billsec : Int
  disposition : Int
  accountcode : String
  amaflags : Int
  peeraccount : String
  linkedid : String
  uniqueid : String
  userfield : String
deriving DecidableEq, Repr

/-- Host disposition code `AST_CDR_ANSWERED` (asterisk/cdr.h). -/
def AST_CDR_ANSWERED : Int := 8

/-- Host collaborator `ast_cdr_disp2str` (Asterisk core `main/cdr.c`):
renders a disposition code as its canonical string name, as the spec
requires for the `disposition` key.  Codes: `NOANSWER = 0`, `NULL = 1`,
`FAILED = 2`, `BUSY = 4`, `ANSWERED = 8`, `CONGESTION = 16`. -/
def ast_cdr_disp2str (disposition : Int) : String :=
  if disposition = 0 then "NO ANSWER"
  else if disposition = 1 then "NO ANSWER"
  else if disposition = 2 then "FAILED"
  else if disposition = 4 then "BUSY"
  else if disposition = 8 then "ANSWERED"
  else if disposition = 16 then "CONGESTION"
  else "UNKNOWN"

/-- Host collaborator `ast_channel_amaflags2string` (Asterisk core
`main/channel.c`): canonical string for the AMA flags value. -/
def ast_channel_amaflags2string (flag : Int) : String :=
  if flag = 1 then "OMIT"
  else if flag = 2 then "BILLING"
  else if flag = 3 then "DOCUMENTATION"
  else "Unknown"

/-- The base JSON object built by `ast_json_pack` in `amqp_cdr_log`
(src/cdr_amqp.c:236-269): eighteen key/value pairs in pack order. -/
def baseJson (cdr : AstCdr) : JsonObj :=
  [ ("clid", JsonVal.str cdr.clid)
  , ("src", JsonVal.str cdr.src)
  , ("dst", JsonVal.str cdr.dst)
  , ("dcontext", JsonVal.str cdr.dcontext)
  , ("channel", JsonVal.str cdr.channel)
  , ("dstchannel", JsonVal.str cdr.dstchannel)
  , ("lastapp", JsonVal.str cdr.lastapp)
  , ("lastdata", JsonVal.str cdr.lastdata)
  , ("start", JsonVal.timeval cdr.start.1 cdr.start.2)
  , ("answer", JsonVal.timeval cdr.answer.1 cdr.answer.2)
  , ("end", JsonVal.timeval cdr.end_.1 cdr.end_.2)
  , ("durationsec", JsonVal.int cdr.duration)
  , ("billsec", JsonVal.int cdr.billsec)
  , ("disposition", JsonVal.str (ast_cdr_disp2str cdr.disposition))
  , ("accountcode", JsonVal.str cdr.accountcode)
  , ("amaflags", JsonVal.str (ast_channel_amaflags2string cdr.amaflags))
  , ("peeraccount", JsonVal.str cdr.peeraccount)
  , ("linkedid", JsonVal.str cdr.linkedid) ]

/-- The document produced by `amqp_cdr_log` for a CDR under a given global
configuration: the base object, then `uniqueid` when `loguniqueid` is set,
then `userfield` when `loguserfield` is set (src/cdr_amqp.c:274-283). -/
def cdrJson (g : GlobalConf) (cdr : AstCdr) : JsonObj :=
  let j0 := baseJson cdr
  let j1 :=
    if g.loguniqueid
    then ast_json_object_set j0 "uniqueid" (JsonVal.str cdr.uniqueid)
    else j0
  if g.loguserfield
  then ast_json_object_set j1 "userfield" (JsonVal.str cdr.userfield)
  else j1

/-- Render a JSON value to text (model of the textual encoding used by
`ast_json_dump_string`; the claims only use that the body is the encoding of
the document). -/
def renderVal : JsonVal → String
  | JsonVal.str s => "\x22" ++ s ++ "\x22"
  | JsonVal.int n => toString n
  | JsonVal.timeval sec usec => toString sec ++ "." ++ toString usec

/-- Model of `ast_json_dump_string`: the document's canonical textual
form. -/
def dumpJson (doc : JsonObj) : String :=
  "\x7b"
    ++ String.intercalate ", "
      (doc.map (fun kv => "\x22" ++ kv.1 ++ "\x22: " ++ renderVal kv.2))
    ++ "\x7d"

/-- `amqp_basic_properties_t` as initialized at src/cdr_amqp.c:226-230:
which property flags are set, the delivery mode, and the content type. -/
structure BasicProperties where
  flagDeliveryMode : Bool
  flagContentType : Bool
  delivery_mode : Nat
  content_type : String
deriving DecidableEq, Repr

/-- The property block every publish uses: delivery-mode and content-type
flags set, persistent delivery mode `2`, content type
`application/json`. -/
def cdrProps : BasicProperties :=
  { flagDeliveryMode := true
  , flagContentType := true
  , delivery_mode := 2
  , content_type := "application/json" }

/-- One call to `ast_amqp_basic_publish` (src/cdr_amqp.c:292-298): the
connection handle argument exactly as passed (the C code passes
`conf->global->amqp`, which may be `NULL`), exchange, routing key, the
`mandatory` and `immediate` integer flags, the properties, and the
serialized body. -/
structure PublishReq where
  conn : Option AmqpConnection
  exchange : String
  routing_key : String
  mandatory : Nat
  immediate : Nat
  props : BasicProperties
  body : String
deriving DecidableEq, Repr

/-- Observable events of one `amqp_cdr_log` invocation: a JSON-construction
attempt (`ast_json_pack`) and a network publish attempt. -/
inductive LogEvent where
  | packJson
  | publish (req : PublishReq)
deriving DecidableEq, Repr

/-- The publish attempts recorded in an event trace. -/
def publishedReqs : List LogEvent → List PublishReq
  | [] => []
  | LogEvent.packJson :: rest => publishedReqs rest
  | LogEvent.publish r :: rest => r :: publishedReqs rest

/-- Oracles for the fallible collaborator calls inside `amqp_cdr_log`:
whether `ast_json_pack` succeeds, whether `ast_json_dump_string` succeeds,
and the return value of `ast_amqp_basic_publish`. -/
structure LogEnv where
  packOk : Bool
  dumpOk : Bool
  publishRes : Int
deriving DecidableEq, Repr

/-- The condition asserted by `ast_assert(conf && conf->global &&
conf->global->amqp)` at src/cdr_amqp.c:234.  The macro itself is a
diagnostic: a no-op in a production build (execution simply continues), a
log or process abort in a DEVMODE/DO_CRASH build; it never returns from the
function.  This definition captures only the asserted condition. -/
def assert_state_ok (store : Option CdrAmqpConf) : Bool :=
  match store with
  | none => false
  | some conf =>
    match conf.global with
    | none => false
    | some g => g.amqp.isSome

/-- Outcome of one execution of a C function: a normal return with a code,
or abnormal termination (a NULL-pointer dereference, i.e. the function
never returns). -/
inductive CResult where
  | ret (code : Int)
  | crash
deriving DecidableEq, Repr

/-- `amqp_cdr_log` (src/cdr_amqp.c:219-306), as a production build executes
it.  The handler takes one reference to the current global configuration
(line 232).  The `ast_assert` at line 234 is a no-op that continues into
the body (a DO_CRASH build would abort the whole process there).
`ast_json_pack` (lines 236-269) runs first and reads only the CDR, never
`conf`; on pack failure the handler returns `-1` (line 271).  The
optional-field step (lines 275-283) then dereferences `conf->global`: when
no configuration was installed, or it had no global section, this is a NULL
dereference, modelled as `CResult.crash`.  Otherwise the document is dumped
(failure returns `-1`, line 289) and `ast_amqp_basic_publish` is called
exactly once with whatever handle the snapshot holds — possibly `NULL` —
the snapshot's exchange and queue, `mandatory = 0`, `immediate = 0`, the
fixed property block and the dumped body; a non-zero library return yields
`-1` (line 302).  Returns the outcome and the event trace. -/
def amqp_cdr_log (env : LogEnv) (store : Option CdrAmqpConf)
    (cdr : AstCdr) : CResult × List LogEvent :=
  if env.packOk = false then (CResult.ret (-1), [LogEvent.packJson])
  else
    match store with
    | none => (CResult.crash, [LogEvent.packJson])
    | some conf =>
      match conf.global with
      | none => (CResult.crash, [LogEvent.packJson])
      | some g =>
        let json := cdrJson g cdr
        if env.dumpOk = false then (CResult.ret (-1), [LogEvent.packJson])
        else
          let req : PublishReq :=
            { conn := g.amqp
            , exchange := g.exchange
            , routing_key := g.queue
            , mandatory := 0
            , immediate := 0
            , props := cdrProps
            , body := dumpJson json }
          if env.publishRes = 0
          then (CResult.ret 0, [LogEvent.packJson, LogEvent.publish req])
          else (CResult.ret (-1), [LogEvent.packJson, LogEvent.publish req])

/-- A publish interleaved with a reload: the handler acquires its reference
to the store content at time t0 (`ao2_global_obj_ref`, src/cdr_amqp.c:232),
a concurrent reload then installs `reloaded` into the global store, and the
rest of the handler runs against the acquired reference only — exactly as in
the C code, where the single global read happens at line 232 and every later
access goes through the local `conf`.  Returns the handler's outcome and the
store content after the interleaving. -/
def log_with_concurrent_reload (env : LogEnv) (store0 : Option CdrAmqpConf)
    (reloaded : Option CdrAmqpConf) (cdr : AstCdr) :
    (CResult × List LogEvent) × Option CdrAmqpConf :=
  let acquired := store0
  let storeAfter := reloaded
  (amqp_cdr_log env acquired cdr, storeAfter)

/-- Module lifecycle events acting on the global store: initial load
(`load_module` → `load_config(0)`), reload (`reload_module` →
`load_config(1)`), and unload (`unload_module` →
`ao2_global_obj_release`). -/
inductive ModuleEvent where
  | load (file : ConfigFileRead)
  | reload (file : ConfigFileRead)
  | unload

/-- Effect of one lifecycle event on the global store, given the connection
environment in effect for that event. -/
def stepStore (getConn : String → Option AmqpConnection)
    (store : Option CdrAmqpConf) : ModuleEvent → Option CdrAmqpConf
  | ModuleEvent.load file => (load_config getConn file store).2
  | ModuleEvent.reload file => (load_config getConn file store).2
  | ModuleEvent.unload => none

/-- Run a sequence of lifecycle events (each with its own connection
environment) from the initial empty store. -/
def runModule
    (trace : List ((String → Option AmqpConnection) × ModuleEvent)) :
    Option CdrAmqpConf :=
  trace.foldl (fun s p => stepStore p.1 s p.2) none

/-! Concrete example values used by witnesses. -/

/-- A live connection handle with identity 1. -/
def exConn : AmqpConnection := ⟨1⟩

/-- A second, distinct connection handle. -/
def exConn2 : AmqpConnection := ⟨2⟩

/-- An installed global configuration with both optional flags on and a
live handle. -/
def exGlobal : GlobalConf :=
  { defaultGlobalConf with
      loguniqueid := true
    , loguserfield := true
    , amqp := some exConn }

/-- An installed configuration wrapping `exGlobal`. -/
def exConf : CdrAmqpConf := { global := some exGlobal }

/-- The spec's end-to-end example record: Alice calls 200, answered. -/
def exCdr : AstCdr :=
  { clid := "\x22Alice\x22 <100>"
  , src := "100"
  , dst := "200"
  , dcontext := "default"
  , channel := "PJSIP/100-00000001"
  , dstchannel := "PJSIP/200-00000002"
  , lastapp := "Dial"
  , lastdata := "PJSIP/200"
  , start := (1000, 0)
  , answer := (1005, 0)
  , end_ := (1030, 0)
  , duration := 30
  , billsec := 25
  , disposition := AST_CDR_ANSWERED
  , accountcode := "acct"
  , amaflags := 3
  , peeraccount := "peer"
  , linkedid := "1000.1"
  , uniqueid := "1000.0"
  , userfield := "note" }

/-- C1: if a reload's build step cannot obtain a broker handle for the
configured connection name, the reload returns failure, the candidate
configuration is not installed, and the store still holds exactly the
previously installed snapshot S — same flags, exchange, queue and handle
identity. -/
theorem reload_failure_preserves_snapshot
    (getConn : String → Option AmqpConnection) (S : CdrAmqpConf)
    (opts : List ConfOption)
    (hfail : getConn (buildGlobalConf opts).connection = none) :
    load_config getConn (ConfigFileRead.parsed opts) (some S)
      = (-1, some S) := by
  simp [load_config, aco_process_config, setup_amqp, hfail]

/-- Witness for C1 at a concrete input: a connection environment that has no
connections, reloading over the installed `exConf`. -/
theorem reload_failure_preserves_snapshot_witness :
    (fun _ : String => (none : Option AmqpConnection))
        (buildGlobalConf []).connection = none
    ∧ load_config (fun _ => none) (ConfigFileRead.parsed []) (some exConf)
        = (-1, some exConf) :=
  ⟨rfl, reload_failure_preserves_snapshot (fun _ => none) exConf [] rfl⟩

/-- C5: on every reload whose build step succeeds, the installed snapshot's
handle is exactly the handle freshly returned by the connection
collaborator at build time — whatever the previous store held (the result
does not depend on `store0`), so an old handle is never carried over. -/
theorem reload_refreshes_handle
    (getConn : String → Option AmqpConnection) (store0 : Option CdrAmqpConf)
    (opts : List ConfOption) (h : AmqpConnection)
    (hfresh : getConn (buildGlobalConf opts).connection = some h) :
    load_config getConn (ConfigFileRead.parsed opts) store0
      = (0, some { global := some { buildGlobalConf opts with amqp := some h } }) := by
  simp [load_config, aco_process_config, setup_amqp, hfresh]

/-- Witness for C5 at a concrete input: the previous snapshot holds handle
`exConn`, the collaborator now returns `exConn2`, and the installed snapshot
carries `exConn2`. -/
theorem reload_refreshes_handle_witness :
    (fun _ : String => some exConn2) (buildGlobalConf []).connection
        = some exConn2
    ∧ load_config (fun _ => some exConn2) (ConfigFileRead.parsed [])
        (some exConf)
      = (0, some { global := some { buildGlobalConf [] with amqp := some exConn2 } }) :=
  ⟨rfl, reload_refreshes_handle (fun _ => some exConn2) (some exConf) []
    exConn2 rfl⟩

/-- C6: a configuration setting none of the five options builds to the
defaults (`loguniqueid = false`, `loguserfield = false`, `connection = ""`,
`exchange = ""`, `queue = "asterisk_cdr"`), and an explicitly set value
overrides whatever was in effect before it. -/
theorem config_defaults_and_overrides :
    buildGlobalConf []
      = { connection := ""
        , queue := "asterisk_cdr"
        , exchange := ""
        , loguniqueid := false
        , loguserfield := false
        , amqp := none }
    ∧ (∀ opts b,
        (buildGlobalConf (opts ++ [ConfOption.loguniqueid b])).loguniqueid = b)
    ∧ (∀ opts b,
        (buildGlobalConf (opts ++ [ConfOption.loguserfield b])).loguserfield = b)
    ∧ (∀ opts s,
        (buildGlobalConf (opts ++ [ConfOption.connection s])).connection = s)
    ∧ (∀ opts s,
        (buildGlobalConf (opts ++ [ConfOption.queue s])).queue = s)
    ∧ (∀ opts s,
        (buildGlobalConf (opts ++ [ConfOption.exchange s])).exchange = s) := by
  refine ⟨rfl, ?_, ?_, ?_, ?_, ?_⟩ <;> intro opts v <;>
    simp [buildGlobalConf, List.foldl_append, applyOption]

/-- C2: with `loguniqueid` off the document has no `uniqueid` key at all;
with it on, the key is present and equal to the record's unique id — and
likewise for `loguserfield` and the `userfield` key, whatever the other
flag is. -/
theorem optional_field_omission (g : GlobalConf) (cdr : AstCdr) :
    jsonGet (cdrJson { g with loguniqueid := false } cdr) "uniqueid" = none
    ∧ jsonGet (cdrJson { g with loguniqueid := true } cdr) "uniqueid"
        = some (JsonVal.str cdr.uniqueid)
    ∧ jsonGet (cdrJson { g with loguserfield := false } cdr) "userfield"
        = none
    ∧ jsonGet (cdrJson { g with loguserfield := true } cdr) "userfield"
        = some (JsonVal.str cdr.userfield) := by
  cases hu : g.loguserfield <;> cases hq : g.loguniqueid <;>
    simp [cdrJson, hu, hq, ast_json_object_set, baseJson, jsonGet]

/-- An installed global configuration whose AMQP handle is absent (the
state claim C3 is about). -/
def exGlobalNoHandle : GlobalConf := { exGlobal with amqp := none }

/-- C3 is refuted by the code: with no configuration installed and a
succeeding JSON pack, the handler serializes first (the pack event occurs)
and then crashes dereferencing the NULL configuration — there is no
immediate `ConfigUnavailable` failure and serialization is attempted; with
an installed snapshot whose handle is absent, it serializes fully and makes
a network publish attempt passing the NULL handle, even reporting success
when the library returns 0 — there is no immediate `NoConnection` failure
and a network attempt is made. -/
theorem missing_state_not_fail_fast :
    amqp_cdr_log ⟨true, true, 0⟩ none exCdr
      = (CResult.crash, [LogEvent.packJson])
    ∧ amqp_cdr_log ⟨true, true, 0⟩ (some { global := some exGlobalNoHandle })
        exCdr
      = (CResult.ret 0,
         [ LogEvent.packJson
         , LogEvent.publish
             { conn := none
             , exchange := exGlobalNoHandle.exchange
             , routing_key := exGlobalNoHandle.queue
             , mandatory := 0
             , immediate := 0
             , props := cdrProps
             , body := dumpJson (cdrJson exGlobalNoHandle exCdr) } ]) :=
  ⟨rfl, rfl⟩

/-- Counterexample for C4 as stated: on the spec's own example record under
a snapshot with both optional flags on, the produced document has 20 keys
(18 required plus `uniqueid` and `userfield`), not the claimed 16 + 2. -/
theorem document_key_count_is_twenty :
    ((cdrJson exGlobal exCdr).map Prod.fst).length = 20 ∧ 16 + 2 ≠ 20 := by
  exact ⟨rfl, by decide⟩

/-- C4 (amended: 18 required keys, not 16): under a snapshot with both
optional flags on, the document's keys are exactly the 18 required keys
followed by `uniqueid` and `userfield`, `durationsec` carries the record's
duration as an integer, and `disposition` is the canonical string name of
the disposition — for `AST_CDR_ANSWERED` the string `"ANSWERED"`, not a
numeric code. -/
theorem end_to_end_document_shape (g : GlobalConf) (cdr : AstCdr) :
    (cdrJson { g with loguniqueid := true, loguserfield := true } cdr).map
        Prod.fst
      = [ "clid", "src", "dst", "dcontext", "channel", "dstchannel"
        , "lastapp", "lastdata", "start", "answer", "end", "durationsec"
        , "billsec", "disposition", "accountcode", "amaflags"
        , "peeraccount", "linkedid", "uniqueid", "userfield" ]
    ∧ jsonGet (cdrJson { g with loguniqueid := true, loguserfield := true }
          cdr) "durationsec"
        = some (JsonVal.int cdr.duration)
    ∧ jsonGet (cdrJson { g with loguniqueid := true, loguserfield := true }
          cdr) "disposition"
        = some (JsonVal.str (ast_cdr_disp2str cdr.disposition))
    ∧ ast_cdr_disp2str AST_CDR_ANSWERED = "ANSWERED" := by
  refine ⟨?_, ?_, ?_, by decide⟩ <;>
    simp [cdrJson, ast_json_object_set, baseJson, jsonGet]

/-- A second installed configuration (for the reload interleaving): both
flags off, handle `exConn2`. -/
def exConfAlt : CdrAmqpConf :=
  { global := some { defaultGlobalConf with amqp := some exConn2 } }

/-- The publish request `amqp_cdr_log` produces for `exCdr` under
`exConf`. -/
def exReq : PublishReq :=
  { conn := exGlobal.amqp
  , exchange := exGlobal.exchange
  , routing_key := exGlobal.queue
  , mandatory := 0
  , immediate := 0
  , props := cdrProps
  , body := dumpJson (cdrJson exGlobal exCdr) }

/-- Every publish attempt recorded by `amqp_cdr_log` draws all its fields
from the acquired snapshot: the snapshot's handle, exchange and queue, the
fixed property block, unset mandatory/immediate flags, and the encoding of
the document built under the snapshot's flags. -/
theorem publish_req_spec (env : LogEnv) (store : Option CdrAmqpConf)
    (cdr : AstCdr) (req : PublishReq)
    (hmem : req ∈ publishedReqs (amqp_cdr_log env store cdr).2) :
    ∃ g, store = some { global := some g }
      ∧ req.conn = g.amqp
      ∧ req.exchange = g.exchange
      ∧ req.routing_key = g.queue
      ∧ req.mandatory = 0
      ∧ req.immediate = 0
      ∧ req.props = cdrProps
      ∧ req.body = dumpJson (cdrJson g cdr) := by
  rcases store with _ | ⟨_ | g⟩
  · cases hp : env.packOk <;>
      simp [amqp_cdr_log, hp, publishedReqs] at hmem
  · cases hp : env.packOk <;>
      simp [amqp_cdr_log, hp, publishedReqs] at hmem
  · cases hp : env.packOk with
    | false =>
      simp [amqp_cdr_log, hp, publishedReqs] at hmem
    | true =>
      cases hd : env.dumpOk with
      | false =>
        simp [amqp_cdr_log, hp, hd, publishedReqs] at hmem
      | true =>
        have hreq : req =
            { conn := g.amqp
            , exchange := g.exchange
            , routing_key := g.queue
            , mandatory := 0
            , immediate := 0
            , props := cdrProps
            , body := dumpJson (cdrJson g cdr) } := by
          by_cases hr : env.publishRes = 0 <;>
            simpa [amqp_cdr_log, hp, hd, hr, publishedReqs] using hmem
        subst hreq
        exact ⟨g, rfl, rfl, rfl, rfl, rfl, rfl, rfl, rfl⟩

/-- C7: every publish attempt carries content type `application/json`,
persistent delivery mode `2` with both property flags set, the `mandatory`
and `immediate` flags unset (`0`), and the exchange and routing key taken
verbatim from the snapshot in effect for the call. -/
theorem delivery_contract (env : LogEnv) (store : Option CdrAmqpConf)
    (cdr : AstCdr) :
    ∀ req ∈ publishedReqs (amqp_cdr_log env store cdr).2,
      req.props.content_type = "application/json"
      ∧ req.props.delivery_mode = 2
      ∧ req.props.flagDeliveryMode = true
      ∧ req.props.flagContentType = true
      ∧ req.mandatory = 0
      ∧ req.immediate = 0
      ∧ ∃ g, store = some { global := some g }
          ∧ req.exchange = g.exchange ∧ req.routing_key = g.queue := by
  intro req hmem
  obtain ⟨g, hstore, _, hex, hrk, hman, himm, hprops, _⟩ :=
    publish_req_spec env store cdr req hmem
  exact ⟨by rw [hprops]; rfl, by rw [hprops]; rfl, by rw [hprops]; rfl,
    by rw [hprops]; rfl, hman, himm, g, hstore, hex, hrk⟩

/-- Witness for C7 at a concrete input: the one publish request produced for
`exCdr` under `exConf` satisfies the delivery contract. -/
theorem delivery_contract_witness :
    exReq ∈ publishedReqs (amqp_cdr_log ⟨true, true, 0⟩ (some exConf)
        exCdr).2
    ∧ (exReq.props.content_type = "application/json"
      ∧ exReq.props.delivery_mode = 2
      ∧ exReq.props.flagDeliveryMode = true
      ∧ exReq.props.flagContentType = true
      ∧ exReq.mandatory = 0
      ∧ exReq.immediate = 0
      ∧ ∃ g, some exConf = some { global := some g }
          ∧ exReq.exchange = g.exchange
          ∧ exReq.routing_key = g.queue) :=
  ⟨List.mem_singleton.mpr rfl,
   delivery_contract ⟨true, true, 0⟩ (some exConf) exCdr exReq
     (List.mem_singleton.mpr rfl)⟩

/-- C8: each invocation performs at most one publish attempt; when JSON
construction fails the handler returns `-1` with nothing sent; when
encoding to bytes fails nothing is sent either, and on every path where the
encoding step is reached (a configuration with a global section is
installed) the handler returns `-1`; with the fail-fast precondition
satisfied and serialization succeeding, exactly one publish attempt is
made; and a non-success broker return never yields success, yielding `-1`
on every path that returns.  The handler keeps no retry state: its outcome
is a pure function of one invocation's inputs. -/
theorem at_most_once_publish (env : LogEnv) (store : Option CdrAmqpConf)
    (cdr : AstCdr) :
    (publishedReqs (amqp_cdr_log env store cdr).2).length ≤ 1
    ∧ (env.packOk = false →
        publishedReqs (amqp_cdr_log env store cdr).2 = []
        ∧ (amqp_cdr_log env store cdr).1 = CResult.ret (-1))
    ∧ (env.dumpOk = false →
        publishedReqs (amqp_cdr_log env store cdr).2 = [])
    ∧ (∀ g, store = some { global := some g } → env.dumpOk = false →
        (amqp_cdr_log env store cdr).1 = CResult.ret (-1))
    ∧ (assert_state_ok store = true → env.packOk = true →
        env.dumpOk = true →
        (publishedReqs (amqp_cdr_log env store cdr).2).length = 1)
    ∧ (env.publishRes ≠ 0 →
        (amqp_cdr_log env store cdr).1 ≠ CResult.ret 0)
    ∧ (∀ g, store = some { global := some g } → env.publishRes ≠ 0 →
        (amqp_cdr_log env store cdr).1 = CResult.ret (-1)) := by
  rcases store with _ | ⟨_ | g⟩
  · cases hp : env.packOk <;>
      simp [amqp_cdr_log, assert_state_ok, hp, publishedReqs]
  · cases hp : env.packOk <;>
      simp [amqp_cdr_log, assert_state_ok, hp, publishedReqs]
  · cases hp : env.packOk with
    | false =>
      simp [amqp_cdr_log, assert_state_ok, hp, publishedReqs]
    | true =>
      cases hd : env.dumpOk with
      | false =>
        simp [amqp_cdr_log, assert_state_ok, hp, hd, publishedReqs]
      | true =>
        by_cases hr : env.publishRes = 0 <;>
          simp [amqp_cdr_log, assert_state_ok, hp, hd, hr, publishedReqs]

/-- Witness for C8 at a concrete input: with a valid snapshot and a broker
that returns `1`, exactly one publish attempt is made and the call fails. -/
theorem at_most_once_publish_witness :
    assert_state_ok (some exConf) = true
    ∧ (publishedReqs (amqp_cdr_log ⟨true, true, 1⟩ (some exConf)
        exCdr).2).length = 1
    ∧ (amqp_cdr_log ⟨true, true, 1⟩ (some exConf) exCdr).1
        = CResult.ret (-1) :=
  ⟨by decide,
   (at_most_once_publish ⟨true, true, 1⟩ (some exConf) exCdr).2.2.2.2.1
     (by decide) rfl rfl,
   (at_most_once_publish ⟨true, true, 1⟩ (some exConf) exCdr).2.2.2.2.2.2
     exGlobal rfl (by decide)⟩

/-- C9: a publish that acquires snapshot S while a concurrent reload
installs S′ behaves exactly as a publish against S alone — the store ends up
holding S′, yet every field the operation uses (handle, exchange, routing
key, and the serialization flags reflected in the body) comes from S, never
from S′. -/
theorem snapshot_consistency (env : LogEnv) (S Sp : CdrAmqpConf)
    (cdr : AstCdr) :
    (log_with_concurrent_reload env (some S) (some Sp) cdr).1
      = amqp_cdr_log env (some S) cdr
    ∧ (log_with_concurrent_reload env (some S) (some Sp) cdr).2 = some Sp
    ∧ ∀ req ∈ publishedReqs
          (log_with_concurrent_reload env (some S) (some Sp) cdr).1.2,
        ∃ g, S.global = some g
          ∧ req.conn = g.amqp
          ∧ req.exchange = g.exchange
          ∧ req.routing_key = g.queue
          ∧ req.body = dumpJson (cdrJson g cdr) := by
  refine ⟨rfl, rfl, ?_⟩
  intro req hmem
  obtain ⟨g, hstore, hc, hex, hrk, _, _, _, hbody⟩ :=
    publish_req_spec env (some S) cdr req hmem
  have hg : S.global = some g := by
    injection hstore with h1
    rw [h1]
  exact ⟨g, hg, hc, hex, hrk, hbody⟩

/-- Witness for C9 at a concrete input: a reload installing `exConfAlt`
mid-publish leaves the publish request drawn entirely from `exConf`. -/
theorem snapshot_consistency_witness :
    exReq ∈ publishedReqs
        (log_with_concurrent_reload ⟨true, true, 0⟩ (some exConf)
          (some exConfAlt) exCdr).1.2
    ∧ ∃ g, exConf.global = some g
        ∧ exReq.conn = g.amqp
        ∧ exReq.exchange = g.exchange
        ∧ exReq.routing_key = g.queue
        ∧ exReq.body = dumpJson (cdrJson g exCdr) :=
  ⟨List.mem_singleton.mpr rfl,
   (snapshot_consistency ⟨true, true, 0⟩ exConf exConfAlt exCdr).2.2 exReq
     (List.mem_singleton.mpr rfl)⟩

/-- The store holds only snapshots that pass the publish path's defensive
assertion. -/
def store_ok (s : Option CdrAmqpConf) : Prop :=
  ∀ conf, s = some conf → assert_state_ok (some conf) = true

/-- `load_config` never modifies the store beyond what `aco_process_config`
installed. -/
theorem load_config_store (getConn : String → Option AmqpConnection)
    (file : ConfigFileRead) (store : Option CdrAmqpConf) :
    (load_config getConn file store).2
      = (aco_process_config getConn file store).2 := by
  unfold load_config
  rcases h : aco_process_config getConn file store with ⟨st, s2⟩
  cases st <;> rcases s2 with _ | conf <;> try rfl
  all_goals cases hg : conf.global <;> simp [hg]

/-- When `setup_amqp` reports success, the configuration it leaves behind
has a global section with a present AMQP handle. -/
theorem setup_amqp_ok (getConn : String → Option AmqpConnection)
    (pending : CdrAmqpConf)
    (h0 : (setup_amqp getConn pending).1 = 0) :
    assert_state_ok (some (setup_amqp getConn pending).2) = true := by
  cases hg : pending.global with
  | none =>
    rw [setup_amqp, hg] at h0
    simp at h0
  | some g =>
    rw [setup_amqp, hg] at h0 ⊢
    cases hf : getConn g.connection with
    | none => simp [hf] at h0
    | some c => simp [hf, assert_state_ok]

/-- `aco_process_config` preserves the store invariant: it installs only
configurations that passed `setup_amqp`. -/
theorem aco_store_ok (getConn : String → Option AmqpConnection)
    (file : ConfigFileRead) (s : Option CdrAmqpConf) (hs : store_ok s) :
    store_ok (aco_process_config getConn file s).2 := by
  cases file with
  | parseError => exact hs
  | unchanged => exact hs
  | parsed opts =>
    by_cases h :
        (setup_amqp getConn { global := some (buildGlobalConf opts) }).1 = 0
    · intro conf hc
      simp only [aco_process_config, h, if_true] at hc
      injection hc with h2
      rw [← h2]
      exact setup_amqp_ok getConn _ h
    · intro conf hc
      simp only [aco_process_config, h, if_false] at hc
      exact hs conf hc

/-- Each module lifecycle event preserves the store invariant. -/
theorem step_preserves_store_ok (getConn : String → Option AmqpConnection)
    (s : Option CdrAmqpConf) (ev : ModuleEvent) (hs : store_ok s) :
    store_ok (stepStore getConn s ev) := by
  cases ev with
  | unload => intro conf h; cases h
  | load file =>
    show store_ok (load_config getConn file s).2
    rw [load_config_store]
    exact aco_store_ok getConn file s hs
  | reload file =>
    show store_ok (load_config getConn file s).2
    rw [load_config_store]
    exact aco_store_ok getConn file s hs

/-- Any store state reachable from the initial empty store through
load/reload/unload events satisfies the invariant. -/
theorem runModule_store_ok
    (trace : List ((String → Option AmqpConnection) × ModuleEvent)) :
    store_ok (runModule trace) := by
  suffices hgen : ∀ (tr : List ((String → Option AmqpConnection) ×
      ModuleEvent)) (s : Option CdrAmqpConf), store_ok s →
      store_ok (tr.foldl (fun a p => stepStore p.1 a p.2) s) by
    exact hgen trace none (fun conf h => by cases h)
  intro tr
  induction tr with
  | nil => intro s hs; exact hs
  | cons p rest ih =>
    intro s hs
    exact ih _ (step_preserves_store_ok p.1 s p.2 hs)

/-- C10: every snapshot ever installed into the global store — at initial
load or on any successful reload — has a present broker handle, because
`setup_amqp` rejects a candidate before it becomes visible; hence the
publish path's defensive assertion can never fail while a snapshot is
installed. -/
theorem installed_snapshot_has_handle
    (trace : List ((String → Option AmqpConnection) × ModuleEvent))
    (conf : CdrAmqpConf) (hinst : runModule trace = some conf) :
    assert_state_ok (some conf) = true :=
  runModule_store_ok trace conf hinst

/-- Witness for C10 at a concrete input: a single initial load against an
available broker installs a snapshot, and the assertion holds on it. -/
theorem installed_snapshot_has_handle_witness :
    runModule [((fun _ => some exConn),
        ModuleEvent.load (ConfigFileRead.parsed []))]
      = some { global := some { buildGlobalConf [] with amqp := some exConn } }
    ∧ assert_state_ok
        (some { global := some { buildGlobalConf [] with amqp := some exConn } })
      = true :=
  ⟨rfl,
   installed_snapshot_has_handle
     [((fun _ => some exConn), ModuleEvent.load (ConfigFileRead.parsed []))]
     { global := some { buildGlobalConf [] with amqp := some exConn } } rfl⟩

end CdrAmqp
